import Mathlib

/-!
Verification of the staged-approval workflow engine of the Etmam_SQL
backend: a shallow embedding of the payment-workflow handlers
(`src/api/payment/workflow+api.js`), the order edit/delete handlers and
sequence-id generator (`src/api/order/[id]+api.js`), and the manager
acceptance handlers (`src/api/acceptManager/[id]+api.js`,
`src/api/acceptManagerQuotation/[id]+api.js`).

Conventions of the embedding:
* JavaScript numbers are modelled as `ℚ` (all finite values); a failed
  numeric parse (`NaN` from `Number`/`parseFloat`) is modelled as `none`
  in an `Option ℚ`.
* SQL `NULL`-able columns are `Option` fields; `CURRENT_TIMESTAMP` is an
  explicit `now : Nat` parameter.
* Each HTTP handler becomes a pure function from the relevant database
  row (`Option` of a record structure, `none` = id not present) and the
  parsed request body to a response together with the resulting row.
* The outcome of the external Medad fetch is an explicit `SyncOutcome`
  argument, since the handler branches only on status/ok, raw text and
  thrown errors.
-/

set_option maxRecDepth 10000

namespace Etmam

/-- `Number((x).toFixed(2))` on a finite value: round to two decimal
places (nearest, ties half-up as `round`). -/
def round2 (q : ℚ) : ℚ := (round (q * 100) : ℤ) / 100

/-- JavaScript `String.prototype.trim`: strip whitespace from both
ends. -/
def jsTrim (s : String) : String :=
  String.mk (((s.toList.dropWhile Char.isWhitespace).reverse.dropWhile
    Char.isWhitespace).reverse)

/-- JavaScript `String.prototype.toLowerCase` (ASCII range, which covers
every status literal the handlers compare). -/
def jsToLower (s : String) : String :=
  String.mk (s.toList.map Char.toLower)

/-! ### Payment workflow (`src/api/payment/workflow+api.js`) -/

/-- The payload built for `POST {MEDAD}/payment` after manager approval. -/
structure MedadPayload where
  customerId : String
  customerName : String
  paymentType : Nat
  paymentAmount : ℚ
  version : Nat
  deriving Repr, DecidableEq

/-- The persisted `medad_response` body: parsed JSON, the raw-text
wrapper used when `JSON.parse` fails, or the error object built in the
catch branch. -/
inductive MedadBody where
  | json (raw : String)
  | raw (raw : String)
  | errObj (msg : String)
  deriving Repr, DecidableEq

/-- Result of the `fetch` to the Medad `/payment` endpoint as the handler
observes it: success with body text, non-ok HTTP status with body text
(`parses` records whether `JSON.parse` of that text succeeds), or a
thrown error (token failure, network failure); `none` models a thrown
value with a falsy `message`. -/
inductive SyncOutcome where
  | ok (rawText : String) (parses : Bool)
  | httpError (status : Nat) (rawText : String) (parses : Bool)
  | threw (msg : Option String)
  deriving Repr, DecidableEq

/-- One row of `payment_workflow_requests`. -/
structure PaymentRecord where
  beneficiary_id : String
  beneficiary_name : String
  beneficiary_type : String
  operation_amount : ℚ
  stage : String
  status : String
  accountant_due_amount : Option ℚ
  accountant_note : Option String
  accountant_name : Option String
  accountant_id : Option String
  accountant_updated_at : Option Nat
  statement : Option String
  priority : Option String
  manager_approved : Option Bool
  manager_name : Option String
  manager_id : Option String
  manager_updated_at : Option Nat
  manager_pay_amount : Option ℚ
  remaining_amount : Option ℚ
  payment_state : Option String
  medad_payload : Option MedadPayload
  medad_response : Option MedadBody
  medad_sync_status : String
  medad_error : Option String
  medad_synced_at : Option Nat
  updated_at : Nat
  deriving Repr, DecidableEq

/-- Body of `PATCH /payments/workflow/:id/accountant`; `dueAmount` is the
result of `Number(dueAmount)` (`none` = not finite). -/
structure AccountantReq where
  dueAmount : Option ℚ
  accountantNote : Option String
  accountantName : Option String
  accountantId : Option String
  deriving Repr, DecidableEq

/-- Body of `PATCH /payments/workflow/:id/manager`; `amountToPay` is the
result of `Number(amountToPay)` (`none` = not finite), `priority` the raw
body field before `String(priority ?? '').trim()`. -/
structure ManagerReq where
  amountToPay : Option ℚ
  priority : Option String
  managerName : Option String
  managerId : Option String
  deriving Repr, DecidableEq

/-- The `medad` object included in the manager handler's 200 response. -/
structure MedadInfo where
  status : String
  error : Option String
  deriving Repr, DecidableEq

/-- Response of a payment-workflow handler: HTTP status, the `error`
field for failure bodies, the `medad` object and the returned `request`
row when present. -/
structure PaymentResponse where
  httpStatus : Nat
  error : Option String
  medad : Option MedadInfo
  request : Option PaymentRecord
  deriving Repr, DecidableEq

/-- A 4xx/5xx response carrying only an error message. -/
def errResp (code : Nat) (msg : String) : PaymentResponse :=
  { httpStatus := code, error := some msg, medad := none, request := none }

/-- The sync branch of the manager handler (lines 429-463): from the
fetch outcome to the persisted response body, `medad_sync_status`, and
`medad_error`. `rawText || default` treats the empty string as falsy. -/
def medadOutcome : SyncOutcome → MedadBody × String × Option String
  | .ok rawText parses =>
      (if rawText = "" then .json "" else if parses then .json rawText else .raw rawText,
        "SENT_TO_MEDAD", none)
  | .httpError status rawText parses =>
      (if rawText = "" then .json "" else if parses then .json rawText else .raw rawText,
        "FAILED",
        some (if rawText = "" then "Medad payment failed with status " ++ toString status
              else rawText))
  | .threw msg =>
      let m := msg.getD "Medad payment request failed"
      (.errObj m, "FAILED", some m)

/-- `PATCH /payments/workflow/:id/accountant` (lines 282-336): a single
conditional `UPDATE ... WHERE id = $5 AND stage = 'accountant'
RETURNING *`; an empty row set yields 404 whether the id is absent or the
record is in another stage. -/
def accountantPatch (db : Option PaymentRecord) (req : AccountantReq) (now : Nat) :
    PaymentResponse × Option PaymentRecord :=
  match req.dueAmount with
  | none => (errResp 400 "Valid dueAmount is required", db)
  | some due =>
    if due ≤ 0 then (errResp 400 "Valid dueAmount is required", db)
    else
      match db with
      | none => (errResp 404 "Payment request not found in accountant stage", none)
      | some r =>
        if r.stage = "accountant" then
          let r' := { r with
            accountant_due_amount := some due
            accountant_note := req.accountantNote
            accountant_name := req.accountantName
            accountant_id := req.accountantId
            accountant_updated_at := some now
            stage := "manager"
            status := "pending_manager"
            updated_at := now }
          ({ httpStatus := 200, error := none, medad := none, request := some r' }, some r')
        else
          (errResp 404 "Payment request not found in accountant stage", some r)

/-- `PATCH /payments/workflow/:id/manager` (lines 338-500): validation,
plain read of `accountant_due_amount`, ceiling check, conditional update
guarded by `stage = 'manager' AND status = 'pending_manager'`, Medad
sync, unconditional medad-fields update, 200 response. `paymentType` and
`version` model the `MEDAD_PAYMENT_TYPE`/`MEDAD_PAYMENT_VERSION`
environment constants. -/
def managerPatch (db : Option PaymentRecord) (req : ManagerReq)
    (sync : SyncOutcome) (paymentType version : Nat) (now : Nat) :
    PaymentResponse × Option PaymentRecord :=
  match req.amountToPay with
  | none => (errResp 400 "Valid amountToPay is required", db)
  | some pay =>
    if pay ≤ 0 then (errResp 400 "Valid amountToPay is required", db)
    else
      let pr := jsTrim (req.priority.getD "")
      if ¬ (pr = "1" ∨ pr = "2") then (errResp 400 "priority must be 1 or 2", db)
      else
        match db with
        | none => (errResp 404 "Payment request not found", none)
        | some r =>
          let accountantDue := r.accountant_due_amount.getD 0
          if accountantDue ≤ 0 then
            (errResp 400 "accountant due amount is missing or invalid", some r)
          else if accountantDue < pay then
            (errResp 400 "amountToPay cannot be greater than accountant due amount", some r)
          else
            let remainingAmount := round2 (accountantDue - pay)
            let paymentState := if 0 < remainingAmount then "partial" else "full"
            let finalStatus :=
              if paymentState = "partial" then "approved_manager_partial" else "approved_manager"
            if r.stage = "manager" ∧ r.status = "pending_manager" then
              let approved := { r with
                manager_pay_amount := some pay
                remaining_amount := some remainingAmount
                payment_state := some paymentState
                statement := some "PURCHASES"
                priority := some pr
                manager_approved := some true
                manager_name := req.managerName
                manager_id := req.managerId
                manager_updated_at := some now
                status := finalStatus
                stage := "manager_done"
                updated_at := now }
              let payload : MedadPayload := {
                customerId := approved.beneficiary_id
                customerName := approved.beneficiary_name
                paymentType := paymentType
                paymentAmount := pay
                version := version }
              let out := medadOutcome sync
              let final := { approved with
                medad_payload := some payload
                medad_response := some out.1
                medad_sync_status := out.2.1
                medad_error := out.2.2
                medad_synced_at := some now
                updated_at := now }
              ({ httpStatus := 200, error := none,
                 medad := some { status := out.2.1, error := out.2.2 },
                 request := some { approved with
                   medad_sync_status := out.2.1, medad_error := out.2.2 } },
               some final)
            else
              (errResp 404 "Payment request not found in manager stage", some r)

/-! ### Syntactic embedding of the SQL statement sequences

For claims about the *mechanism* of a handler (transactions, row locks,
WHERE-clause guards) we transcribe the sequence of SQL statements the
handler issues on its success path. -/

/-- A guard in a WHERE clause beyond the primary-key equality. -/
inductive SqlGuard where
  | eqCol (column value : String)
  | lowerNeCol (column value : String)
  deriving Repr, DecidableEq

/-- One SQL statement as issued by a handler. -/
inductive SqlStmt where
  | beginTx
  | commitTx
  | selectRow (table : String) (forUpdate : Bool)
  | updateRow (table : String) (guards : List SqlGuard)
  | deleteRows (table : String)
  | insertRow (table : String)
  deriving Repr, DecidableEq

/-- Statements of the manager approval success path
(`workflow+api.js` lines 361-477): the plain `SELECT
accountant_due_amount`, the stage/status-guarded approval `UPDATE`, and
the unguarded medad-fields `UPDATE`. No `BEGIN`/`COMMIT`, no
`FOR UPDATE`. -/
def managerPatchStmts : List SqlStmt :=
  [ .selectRow "payment_workflow_requests" false,
    .updateRow "payment_workflow_requests"
      [.eqCol "stage" "manager", .eqCol "status" "pending_manager"],
    .updateRow "payment_workflow_requests" [] ]

/-- Statements of the accountant transition (`workflow+api.js` lines
303-320): one conditional `UPDATE` guarded only by `stage =
'accountant'`. -/
def accountantPatchStmts : List SqlStmt :=
  [ .updateRow "payment_workflow_requests" [.eqCol "stage" "accountant"] ]

/-- Statements of `PUT /orders/:id` (`order/[id]+api.js` lines 456-621):
a transaction, a `SELECT ... FOR UPDATE`, the guarded `UPDATE ... WHERE
... AND LOWER(status) <> 'delivered'`, product/location replacement, and
commit. -/
def orderPutStmts : List SqlStmt :=
  [ .beginTx,
    .selectRow "orders" true,
    .updateRow "orders" [.lowerNeCol "status" "delivered"],
    .deleteRows "order_products",
    .insertRow "order_products",
    .deleteRows "order_locations",
    .insertRow "order_locations",
    .commitTx ]

/-- Statements of `DELETE /orders/:id` (`order/[id]+api.js` lines
646-686): a transaction, a `SELECT ... FOR UPDATE` status check, then the
deletes. -/
def orderDeleteStmts : List SqlStmt :=
  [ .beginTx,
    .selectRow "orders" true,
    .deleteRows "order_products",
    .deleteRows "orders",
    .commitTx ]

/-! ### Decimal digit strings

`String(n)` / `parseInt(digits, 10)` / the SQL `SUBSTRING(...)::int`
semantics, as pure functions on `List Char`. -/

/-- Numeric value of a decimal digit character. -/
def charVal (c : Char) : Nat := c.toNat - '0'.toNat

/-- Decimal parse of a digit string (the semantics of `::int` /
`parseInt(_, 10)` on an all-digit string, leading zeros allowed). -/
def digitsToNat (l : List Char) : Nat :=
  l.foldl (fun a c => 10 * a + charVal c) 0

/-- Fuel-driven most-significant-first decimal printing. -/
def natDigitsAux : Nat → Nat → List Char
  | 0, _ => []
  | fuel + 1, n =>
    if n = 0 then []
    else natDigitsAux fuel (n / 10) ++ [Nat.digitChar (n % 10)]

/-- `String(n)` for a natural number: its decimal digit characters. -/
def natDigits (n : Nat) : List Char :=
  if n = 0 then ['0'] else natDigitsAux (n + 1) n

/-! ### Sequence-id generator (`generateCustomId`, `order/[id]+api.js`
lines 963-990)

The SQL scans rows whose `custom_id` matches `^NPO-<year>-[0-9]+`,
extracts the digit run following the `NPO-<year>-` prefix
(`SUBSTRING(custom_id FROM 'NPO-[0-9]{4}-([0-9]+)')::int`), takes the
maximum (0 when none / when extraction fails), and returns
`NPO-<year>-<max+1 padded to 5>`. -/

/-- The year prefix `NPO-${year}-` as characters. -/
def yearPrefChars (year : Nat) : List Char :=
  ("NPO-".toList ++ natDigits year) ++ ['-']

/-- `custom_id ~ '^NPO-<year>-[0-9]+'`. -/
def matchesYearPref (year : Nat) (s : String) : Bool :=
  (yearPrefChars year).isPrefixOf s.toList &&
    !(((s.toList.drop (yearPrefChars year).length).takeWhile Char.isDigit).isEmpty)

/-- The extracted numeric suffix of an id: decimal value of the digit
run right after the year prefix. -/
def suffixVal (year : Nat) (s : String) : Nat :=
  digitsToNat ((s.toList.drop (yearPrefChars year).length).takeWhile Char.isDigit)

/-- `COALESCE(MAX(...), 0)` over the matching rows. -/
def lastIdOf (year : Nat) (existing : List String) : Nat :=
  ((existing.filter (matchesYearPref year)).map (suffixVal year)).foldr max 0

/-- `String(lastId + 1).padStart(5, '0')` as characters. -/
def padChars (n : Nat) : List Char :=
  let ds := natDigits n
  if ds.length < 5 then List.replicate (5 - ds.length) '0' ++ ds else ds

/-- `generateCustomId`: next human-readable id for the year given the
existing `custom_id`s. -/
def generateCustomId (year : Nat) (existing : List String) : String :=
  String.mk (yearPrefChars year ++ padChars (lastIdOf year existing + 1))

/-! ### Orders (`src/api/order/[id]+api.js`, active PUT/DELETE handlers)
and manager acceptance -/

/-- A line item of the request body; `price`/`quantity` are the results
of `parseFloat` (`none` = `NaN`, i.e. non-numeric input). -/
structure RawProduct where
  description : Option String
  price : Option ℚ
  quantity : Option ℚ
  deriving Repr, DecidableEq

/-- `parseFloat(x) || 0`: `NaN` (and 0 itself) coerce to 0. -/
def coerceNum (o : Option ℚ) : ℚ := o.getD 0

/-- A stored `order_products` row. -/
structure StoredProduct where
  description : Option String
  quantity : ℚ
  price : ℚ
  vat : ℚ
  subtotal : ℚ
  deriving Repr, DecidableEq

/-- A delivery location of the request body. -/
structure RawLocation where
  name : Option String
  url : Option String
  deriving Repr, DecidableEq

/-- A stored `order_locations` row. -/
structure StoredLocation where
  name : String
  url : String
  deriving Repr, DecidableEq

/-- The totals loop of `PUT /orders/:id` (lines 496-514): per line,
`lineTotal = price * quantity`, `vat = lineTotal * 0.15`,
`subtotal = lineTotal + vat`; the record totals accumulate. -/
def computeTotals (ps : List RawProduct) : ℚ × ℚ × ℚ :=
  ps.foldl
    (fun acc p =>
      let tp := coerceNum p.price * coerceNum p.quantity
      let vat := tp * (15 / 100)
      (acc.1 + tp, acc.2.1 + vat, acc.2.2 + (tp + vat)))
    (0, 0, 0)

/-- The per-product insert loop of `PUT /orders/:id` (lines 572-592). -/
def storedProducts (ps : List RawProduct) : List StoredProduct :=
  ps.map fun p =>
    let np := coerceNum p.price
    let nq := coerceNum p.quantity
    let tp := np * nq
    let vat := tp * (15 / 100)
    { description := p.description, quantity := nq, price := np,
      vat := vat, subtotal := tp + vat }

/-- `if (name && url)` filtering of delivery locations (truthy =
non-empty string). -/
def storedLocation (l : RawLocation) : Option StoredLocation :=
  match l.name, l.url with
  | some n, some u => if n ≠ "" ∧ u ≠ "" then some ⟨n, u⟩ else none
  | _, _ => none

/-- The trailing decimal-digit run of a character list. -/
def trailingDigits (l : List Char) : List Char :=
  (l.reverse.takeWhile Char.isDigit).reverse

/-- The custom-id revision step of `PUT /orders/:id` (lines 482-490):
`/Rev(\d+)$/` matches when the string ends in a digit run immediately
preceded by `Rev`; then that suffix is replaced by `Rev` and the
incremented number, otherwise `" Rev1"` is appended. -/
def reviseCustomId (s : String) : String :=
  let l := s.toList
  let ds := trailingDigits l
  if ds ≠ [] ∧ ("Rev".toList).isSuffixOf (l.take (l.length - ds.length)) then
    String.mk (l.take (l.length - ds.length - 3) ++ "Rev".toList ++
      natDigits (digitsToNat ds + 1))
  else
    String.mk (l ++ " Rev1".toList)

/-- One row of `orders` (the columns the PUT/DELETE/accept handlers
touch or read). `status` is nullable (`row.status || ''`). -/
structure OrderRow where
  client_id : Option String
  delivery_date : Option String
  delivery_type : Option String
  notes : Option String
  status : Option String
  storekeeperaccept : String
  supervisoraccept : String
  manageraccept : String
  storekeeperaccept_at : Option Nat
  supervisoraccept_at : Option Nat
  manageraccept_at : Option Nat
  actual_delivery_date : Option Nat
  storekeeper_notes : Option String
  total_price : ℚ
  total_vat : ℚ
  total_subtotal : ℚ
  custom_id : String
  updated_at : Nat
  deriving Repr, DecidableEq

/-- An order with its line items and delivery locations. -/
structure OrderState where
  row : OrderRow
  products : List StoredProduct
  locations : List StoredLocation
  deriving Repr, DecidableEq

/-- Body of `PUT /orders/:id`. -/
structure PutBody where
  client_id : Option String
  delivery_date : Option String
  delivery_type : Option String
  notes : Option String
  products : Option (List RawProduct)
  status : Option String
  storekeeper_notes : Option String
  deliveryLocations : Option (List RawLocation)
  deriving Repr, DecidableEq

/-- `x || null` on a string field: empty string becomes `NULL`. -/
def orNull (o : Option String) : Option String :=
  match o with
  | some s => if s = "" then none else some s
  | none => none

/-- Response of an order handler: HTTP status and the `error`/`message`
text. -/
structure OrderResponse where
  httpStatus : Nat
  error : Option String
  deriving Repr, DecidableEq

/-- `PUT /orders/:id` (lines 436-633): `BEGIN`; `SELECT custom_id,
status ... FOR UPDATE`; 404 when absent; 400 + `ROLLBACK` when the row's
status is already `delivered` (case-insensitively); otherwise the
revision/flag-reset `UPDATE` guarded by `LOWER(status) <> 'delivered'`
(which, the status having just been checked under the row lock, affects
the row), product and location replacement, `COMMIT`. -/
def putOrder (db : Option OrderState) (body : PutBody) (now : Nat) :
    OrderResponse × Option OrderState :=
  match db with
  | none => ({ httpStatus := 404, error := some "Order not found" }, none)
  | some st =>
    if (jsToLower (st.row.status.getD "") = "delivered") then
      ({ httpStatus := 400,
         error := some "Cannot update an order that is already delivered" }, some st)
    else
      let statusVal := (body.status.getD "not Delivered")
      let actualDeliveryDate : Option Nat :=
        if jsToLower statusVal = "delivered" then some now else none
      let totals := computeTotals (body.products.getD [])
      let newCustomId := reviseCustomId st.row.custom_id
      let row' := { st.row with
        client_id := body.client_id
        delivery_date := body.delivery_date
        delivery_type := body.delivery_type
        notes := orNull body.notes
        status := some statusVal
        storekeeperaccept := "pending"
        supervisoraccept := "pending"
        manageraccept := "pending"
        manageraccept_at := none
        supervisoraccept_at := none
        storekeeperaccept_at := none
        updated_at := now
        actual_delivery_date :=
          match actualDeliveryDate with
          | some t => some t
          | none => st.row.actual_delivery_date
        storekeeper_notes := orNull body.storekeeper_notes
        total_price := totals.1
        total_vat := totals.2.1
        total_subtotal := totals.2.2
        custom_id := newCustomId }
      let products' :=
        match body.products with
        | some ps => if ps = [] then st.products else storedProducts ps
        | none => st.products
      let locations' :=
        match body.deliveryLocations with
        | some ls => ls.filterMap storedLocation
        | none => st.locations
      ({ httpStatus := 200, error := none },
       some { row := row', products := products', locations := locations' })

/-- `DELETE /orders/:id` (lines 636-697): `BEGIN`; `SELECT status ...
FOR UPDATE`; 404 when absent; 400 + `ROLLBACK` when delivered; otherwise
delete products then the order. -/
def deleteOrder (db : Option OrderState) : OrderResponse × Option OrderState :=
  match db with
  | none => ({ httpStatus := 404, error := some "Order not found" }, none)
  | some st =>
    if (jsToLower (st.row.status.getD "") = "delivered") then
      ({ httpStatus := 400,
         error := some "Cannot delete an order that is already delivered" }, some st)
    else
      ({ httpStatus := 200, error := none }, none)

/-- The `UPDATE` of `PUT /acceptManager/:id` (`acceptManager/[id]+api.js`
lines 94-100): sets `manageraccept`, `manageraccept_at`, `updated_at`,
nothing else, with no condition beyond the id. -/
def acceptManagerUpdate (r : OrderRow) (now : Nat) : OrderRow :=
  { r with
    manageraccept := "accepted"
    manageraccept_at := some now
    updated_at := now }

/-- `PUT /acceptManager/:id` (lines 85-122): 404 when the id matches no
row, otherwise the unconditional update then 200 (the notification step
swallows its own errors and cannot change the outcome). -/
def acceptManagerPut (db : Option OrderRow) (now : Nat) :
    OrderResponse × Option OrderRow :=
  match db with
  | none => ({ httpStatus := 404, error := some "Order not found" }, none)
  | some r =>
    ({ httpStatus := 200, error := none }, some (acceptManagerUpdate r now))

/-- One row of `quotations` (the columns the quotation acceptance
handler touches or reads). -/
structure QuotationRow where
  client_id : Option String
  status : Option String
  storekeeperaccept : String
  supervisoraccept : String
  manageraccept : String
  manageraccept_at : Option Nat
  custom_id : String
  total_price : ℚ
  updated_at : Nat
  deriving Repr, DecidableEq

/-- The `UPDATE` of `PUT /acceptManagerQuotation/:id`
(`acceptManagerQuotation/[id]+api.js` lines 92-98). -/
def acceptManagerQuotationUpdate (r : QuotationRow) (now : Nat) : QuotationRow :=
  { r with
    manageraccept := "accepted"
    manageraccept_at := some now
    updated_at := now }

/-- `PUT /acceptManagerQuotation/:id` (lines 84-120). -/
def acceptManagerQuotationPut (db : Option QuotationRow) (now : Nat) :
    OrderResponse × Option QuotationRow :=
  match db with
  | none => ({ httpStatus := 404, error := some "Quotation not found" }, none)
  | some r =>
    ({ httpStatus := 200, error := none }, some (acceptManagerQuotationUpdate r now))

/-! ### Lemmas about decimal digit strings -/

theorem charVal_digitChar (m : Nat) (h : m < 10) : charVal (Nat.digitChar m) = m := by
  interval_cases m <;> decide

theorem isDigit_digitChar (m : Nat) (h : m < 10) : (Nat.digitChar m).isDigit = true := by
  interval_cases m <;> decide

theorem digitsToNat_append_singleton (l : List Char) (c : Char) :
    digitsToNat (l ++ [c]) = 10 * digitsToNat l + charVal c := by
  simp [digitsToNat, List.foldl_append]

theorem natDigitsAux_spec :
    ∀ (fuel n : Nat), n < 10 ^ fuel →
      digitsToNat (natDigitsAux fuel n) = n ∧
        ∀ c ∈ natDigitsAux fuel n, c.isDigit = true := by
  intro fuel
  induction fuel with
  | zero =>
    intro n hn
    have : n = 0 := by simpa using Nat.lt_one_iff.mp (by simpa using hn)
    subst this
    simp [natDigitsAux, digitsToNat]
  | succ fuel ih =>
    intro n hn
    by_cases h0 : n = 0
    · subst h0; simp [natDigitsAux, digitsToNat]
    · have hdiv : n / 10 < 10 ^ fuel := by
        rw [Nat.div_lt_iff_lt_mul (by norm_num)]
        calc n < 10 ^ (fuel + 1) := hn
          _ = 10 ^ fuel * 10 := by rw [pow_succ]
      obtain ⟨ihv, ihd⟩ := ih (n / 10) hdiv
      have hmod : n % 10 < 10 := Nat.mod_lt _ (by norm_num)
      constructor
      · rw [natDigitsAux, if_neg h0, digitsToNat_append_singleton, ihv,
          charVal_digitChar _ hmod]
        omega
      · intro c hc
        rw [natDigitsAux, if_neg h0] at hc
        rcases List.mem_append.mp hc with h | h
        · exact ihd c h
        · rcases List.mem_singleton.mp h with rfl
          exact isDigit_digitChar _ hmod

theorem digitsToNat_natDigits (n : Nat) : digitsToNat (natDigits n) = n := by
  by_cases h0 : n = 0
  · subst h0; decide
  · have hb : n < 10 ^ (n + 1) :=
      lt_of_lt_of_le (Nat.lt_pow_self (by norm_num) n)
        (Nat.pow_le_pow_right (by norm_num) (Nat.le_succ n))
    rw [natDigits, if_neg h0]
    exact (natDigitsAux_spec (n + 1) n hb).1

theorem natDigits_all_digit (n : Nat) : ∀ c ∈ natDigits n, c.isDigit = true := by
  by_cases h0 : n = 0
  · subst h0; decide
  · have hb : n < 10 ^ (n + 1) :=
      lt_of_lt_of_le (Nat.lt_pow_self (by norm_num) n)
        (Nat.pow_le_pow_right (by norm_num) (Nat.le_succ n))
    rw [natDigits, if_neg h0]
    exact (natDigitsAux_spec (n + 1) n hb).2

theorem natDigits_ne_nil (n : Nat) : natDigits n ≠ [] := by
  by_cases h0 : n = 0
  · subst h0; decide
  · rw [natDigits, if_neg h0]
    rw [natDigitsAux, if_neg h0]
    simp

theorem digitsToNat_replicate_zero (k : Nat) (l : List Char) :
    digitsToNat (List.replicate k '0' ++ l) = digitsToNat l := by
  have hz : ∀ k, (List.replicate k '0').foldl (fun a c => 10 * a + charVal c) 0 = 0 := by
    intro k
    induction k with
    | zero => rfl
    | succ k ih => simpa [List.replicate_succ, charVal] using ih
  simp [digitsToNat, List.foldl_append, hz]

theorem padChars_all_digit (n : Nat) : ∀ c ∈ padChars n, c.isDigit = true := by
  intro c hc
  rw [padChars] at hc
  by_cases h : (natDigits n).length < 5
  · rw [if_pos h] at hc
    rcases List.mem_append.mp hc with h' | h'
    · rcases List.eq_of_mem_replicate h' with rfl; decide
    · exact natDigits_all_digit n c h'
  · rw [if_neg h] at hc
    exact natDigits_all_digit n c hc

theorem digitsToNat_padChars (n : Nat) : digitsToNat (padChars n) = n := by
  rw [padChars]
  by_cases h : (natDigits n).length < 5
  · rw [if_pos h, digitsToNat_replicate_zero, digitsToNat_natDigits]
  · rw [if_neg h, digitsToNat_natDigits]

theorem padChars_ne_nil (n : Nat) : padChars n ≠ [] := by
  rw [padChars]
  by_cases h : (natDigits n).length < 5
  · rw [if_pos h]
    intro hx
    exact natDigits_ne_nil n (List.append_eq_nil.mp hx).2
  · rw [if_neg h]
    exact natDigits_ne_nil n

theorem padChars_length (n : Nat) : 5 ≤ (padChars n).length := by
  rw [padChars]
  by_cases h : (natDigits n).length < 5
  · rw [if_pos h]
    simp [List.length_append, List.length_replicate]
    omega
  · rw [if_neg h]
    omega

/-! ### Generic list helpers -/

theorem takeWhile_append_all {p : Char → Bool} :
    ∀ {a : List Char} (b : List Char), (∀ c ∈ a, p c = true) →
      (a ++ b).takeWhile p = a ++ b.takeWhile p := by
  intro a
  induction a with
  | nil => intro b _; simp
  | cons c a ih =>
    intro b h
    have hc : p c = true := h c (List.mem_cons_self c a)
    simp only [List.cons_append, List.takeWhile_cons, hc, if_true]
    rw [ih b (fun x hx => h x (List.mem_cons_of_mem c hx))]

theorem takeWhile_all {p : Char → Bool} {a : List Char} (h : ∀ c ∈ a, p c = true) :
    a.takeWhile p = a := by
  have := takeWhile_append_all (a := a) [] h
  simpa using this

theorem isPrefixOf_append_self : ∀ (p x : List Char), p.isPrefixOf (p ++ x) = true := by
  intro p
  induction p with
  | nil => intro x; simp [List.isPrefixOf]
  | cons c p ih => intro x; simp [List.isPrefixOf, ih x]

theorem le_foldr_max {l : List Nat} {a : Nat} (h : a ∈ l) (b : Nat) :
    a ≤ l.foldr max b := by
  induction l with
  | nil => cases h
  | cons c tl ih =>
    rcases List.mem_cons.mp h with rfl | h'
    · exact le_max_left _ _
    · exact le_trans (ih h') (le_max_right _ _)

/-! ### Claim C5: the sequence-id generator -/

theorem suffixVal_mk (year : Nat) (ds : List Char)
    (hds : ∀ c ∈ ds, c.isDigit = true) :
    suffixVal year (String.mk (yearPrefChars year ++ ds)) = digitsToNat ds := by
  have h1 : (String.mk (yearPrefChars year ++ ds)).toList = yearPrefChars year ++ ds := rfl
  rw [suffixVal, h1, List.drop_left, takeWhile_all hds]

theorem matchesYearPref_mk (year : Nat) (ds : List Char) (hne : ds ≠ [])
    (hds : ∀ c ∈ ds, c.isDigit = true) :
    matchesYearPref year (String.mk (yearPrefChars year ++ ds)) = true := by
  have h1 : (String.mk (yearPrefChars year ++ ds)).toList = yearPrefChars year ++ ds := rfl
  rw [matchesYearPref, h1, List.drop_left, takeWhile_all hds,
    isPrefixOf_append_self]
  simpa using hne

theorem suffixVal_le_lastIdOf {year : Nat} {existing : List String} {s : String}
    (hs : s ∈ existing) (hm : matchesYearPref year s = true) :
    suffixVal year s ≤ lastIdOf year existing := by
  have h1 : s ∈ existing.filter (matchesYearPref year) :=
    List.mem_filter.mpr ⟨hs, hm⟩
  have h2 : suffixVal year s ∈ (existing.filter (matchesYearPref year)).map (suffixVal year) :=
    List.mem_map_of_mem _ h1
  exact le_foldr_max h2 0

/-- C5: `generateCustomId` scans the ids carrying the year's prefix,
takes the maximum numeric suffix (malformed ids are filtered out or
contribute through their digit run, never raising — the function is
total by construction), and emits `NPO-year-(max+1)` zero-padded to at
least 5 digits; the fresh id carries a numeric suffix strictly greater
than every matching existing id's suffix, and in particular is not among
the existing ids, so sequential non-racing creations yield strictly
increasing, unique ids within the year. -/
theorem c5_sequence_id_generator (year : Nat) (existing : List String) :
    suffixVal year (generateCustomId year existing) = lastIdOf year existing + 1
    ∧ matchesYearPref year (generateCustomId year existing) = true
    ∧ (∀ s ∈ existing, matchesYearPref year s = true →
        suffixVal year s < suffixVal year (generateCustomId year existing))
    ∧ generateCustomId year existing ∉ existing
    ∧ generateCustomId year existing =
        String.mk (yearPrefChars year ++ padChars (lastIdOf year existing + 1))
    ∧ 5 ≤ (padChars (lastIdOf year existing + 1)).length := by
  have hval : suffixVal year (generateCustomId year existing) = lastIdOf year existing + 1 := by
    rw [generateCustomId, suffixVal_mk year _ (padChars_all_digit _), digitsToNat_padChars]
  have hmatch : matchesYearPref year (generateCustomId year existing) = true := by
    rw [generateCustomId]
    exact matchesYearPref_mk year _ (padChars_ne_nil _) (padChars_all_digit _)
  have hlt : ∀ s ∈ existing, matchesYearPref year s = true →
      suffixVal year s < suffixVal year (generateCustomId year existing) := by
    intro s hs hm
    rw [hval]
    exact Nat.lt_succ_of_le (suffixVal_le_lastIdOf hs hm)
  refine ⟨hval, hmatch, hlt, ?_, rfl, padChars_length _⟩
  intro hmem
  exact absurd (hlt _ hmem hmatch) (lt_irrefl _)

/-- Witness for C5 at a concrete year and id population. -/
theorem c5_sequence_id_generator_witness :
    suffixVal 2025 "NPO-2025-00007" <
      suffixVal 2025 (generateCustomId 2025
        ["NPO-2025-00007", "NPO-2025-00003 Rev2", "legacy-junk"])
    ∧ generateCustomId 2025 ["NPO-2025-00007", "NPO-2025-00003 Rev2", "legacy-junk"] ∉
        ["NPO-2025-00007", "NPO-2025-00003 Rev2", "legacy-junk"] :=
  ⟨(c5_sequence_id_generator 2025 _).2.2.1 _ (by decide) (by decide),
    (c5_sequence_id_generator 2025 _).2.2.2.1⟩

/-! ### Concrete payment records used in witnesses and counterexamples -/

/-- A freshly created payment request (`POST /payments/workflow`
defaults). -/
def basePayment : PaymentRecord where
  beneficiary_id := "B-1"
  beneficiary_name := "Ben"
  beneficiary_type := "supplier"
  operation_amount := 1000
  stage := "accountant"
  status := "pending_accountant"
  accountant_due_amount := none
  accountant_note := none
  accountant_name := none
  accountant_id := none
  accountant_updated_at := none
  statement := none
  priority := none
  manager_approved := none
  manager_name := none
  manager_id := none
  manager_updated_at := none
  manager_pay_amount := none
  remaining_amount := none
  payment_state := none
  medad_payload := none
  medad_response := none
  medad_sync_status := "not_sent"
  medad_error := none
  medad_synced_at := none
  updated_at := 0

/-- A payment request sitting in the manager stage with a due amount of
900. -/
def payRecM : PaymentRecord :=
  { basePayment with
    stage := "manager"
    status := "pending_manager"
    accountant_due_amount := some 900 }

/-! ### Claim C1: the manager approval transition -/

/-- C1 (amended): for a record in stage `manager`/status
`pending_manager` with a finite positive `amountToPay` and priority in
1/2: if `amountToPay` exceeds the stored due amount (or the due amount
is missing/non-positive) the request is rejected with 400 and the record
is untouched; otherwise the transition commits with `remaining_amount`
equal to `due - pay` **rounded to two decimals** (`toFixed(2)`),
`payment_state` `partial` iff that rounded remainder is positive, and
final status `approved_manager_partial`/`approved_manager`
accordingly. -/
theorem c1_manager_approval_amended (r : PaymentRecord) (pay : ℚ)
    (prio mn mi : Option String) (sync : SyncOutcome) (pt v now : Nat)
    (hstage : r.stage = "manager") (hstatus : r.status = "pending_manager")
    (hpos : 0 < pay)
    (hpri : jsTrim (prio.getD "") = "1" ∨ jsTrim (prio.getD "") = "2") :
    (r.accountant_due_amount.getD 0 < pay →
      (managerPatch (some r) ⟨some pay, prio, mn, mi⟩ sync pt v now).1.httpStatus = 400
      ∧ (managerPatch (some r) ⟨some pay, prio, mn, mi⟩ sync pt v now).2 = some r)
    ∧ (pay ≤ r.accountant_due_amount.getD 0 →
      ∃ r', (managerPatch (some r) ⟨some pay, prio, mn, mi⟩ sync pt v now).2 = some r'
        ∧ (managerPatch (some r) ⟨some pay, prio, mn, mi⟩ sync pt v now).1.httpStatus = 200
        ∧ r'.manager_pay_amount = some pay
        ∧ r'.remaining_amount = some (round2 (r.accountant_due_amount.getD 0 - pay))
        ∧ r'.payment_state =
            some (if 0 < round2 (r.accountant_due_amount.getD 0 - pay)
              then "partial" else "full")
        ∧ r'.status =
            (if 0 < round2 (r.accountant_due_amount.getD 0 - pay)
              then "approved_manager_partial" else "approved_manager")
        ∧ r'.stage = "manager_done") := by
  have hpay0 : ¬ pay ≤ 0 := not_le.mpr hpos
  constructor
  · intro hlt
    by_cases hd0 : r.accountant_due_amount.getD 0 ≤ 0
    · simp [managerPatch, errResp, hpay0, hpri, hd0]
    · simp [managerPatch, errResp, hpay0, hpri, hd0, hlt]
  · intro hle
    have hd0 : ¬ r.accountant_due_amount.getD 0 ≤ 0 :=
      not_le.mpr (lt_of_lt_of_le hpos hle)
    have hnlt : ¬ r.accountant_due_amount.getD 0 < pay := not_lt.mpr hle
    have hcond : r.stage = "manager" ∧ r.status = "pending_manager" := ⟨hstage, hstatus⟩
    simp only [managerPatch, eq_false hpay0, eq_true hpri, eq_false hd0, eq_false hnlt,
      eq_true hcond, not_true, not_false_iff, if_true, if_false, Option.getD_some]
    refine ⟨_, rfl, ?_, ?_, ?_, ?_, ?_, ?_⟩ <;>
      first
      | trivial
      | (by_cases hrem : 0 < round2 (r.accountant_due_amount.getD 0 - pay) <;> simp [hrem])

/-- Witness for C1 at a concrete full payment: due 900, pay 900. -/
theorem c1_manager_approval_amended_witness :
    ∃ r', (managerPatch (some payRecM) ⟨some 900, some "1", none, none⟩
        (.ok "" true) 1 1 7).2 = some r'
      ∧ (managerPatch (some payRecM) ⟨some 900, some "1", none, none⟩
          (.ok "" true) 1 1 7).1.httpStatus = 200
      ∧ r'.manager_pay_amount = some 900
      ∧ r'.remaining_amount = some (round2 (payRecM.accountant_due_amount.getD 0 - 900))
      ∧ r'.payment_state =
          some (if 0 < round2 (payRecM.accountant_due_amount.getD 0 - 900)
            then "partial" else "full")
      ∧ r'.status =
          (if 0 < round2 (payRecM.accountant_due_amount.getD 0 - 900)
            then "approved_manager_partial" else "approved_manager")
      ∧ r'.stage = "manager_done" :=
  (c1_manager_approval_amended payRecM 900 (some "1") none none (.ok "" true) 1 1 7
    rfl rfl (by norm_num) (Or.inl (by decide))).2 (by simp [payRecM, basePayment])

/-- C1 counterexample: with due 900 and pay 899.999 (finite, positive,
priority 1, record in manager/pending_manager, pay ≤ due), the exact
remainder is 1/1000 — so the claim requires `remaining_amount =
due - pay = 1/1000 > 0`, state `partial`, status
`approved_manager_partial` — but the code's `toFixed(2)` rounding stores
`remaining_amount = 0`, `payment_state = 'full'`, and status
`approved_manager`. -/
theorem c1_counterexample :
    ∃ r', (managerPatch (some payRecM) ⟨some (899999/1000), some "1", none, none⟩
        (.ok "" true) 1 1 7).2 = some r'
      ∧ r'.remaining_amount = some 0
      ∧ r'.payment_state = some "full"
      ∧ r'.status = "approved_manager"
      ∧ payRecM.accountant_due_amount.getD 0 - 899999/1000 = 1/1000
      ∧ ¬ ((0 : ℚ) = payRecM.accountant_due_amount.getD 0 - 899999/1000) := by
  have hsub : payRecM.accountant_due_amount.getD 0 - (899999/1000 : ℚ) = 1/1000 := by
    simp [payRecM, basePayment]
    norm_num
  have hround : round2 ((1 : ℚ)/1000) = 0 := by
    rw [round2]
    have h100 : ((1 : ℚ)/1000) * 100 = 1/10 := by norm_num
    rw [h100, round_eq]
    norm_num [Int.floor_eq_iff]
  have hpay0 : ¬ (899999/1000 : ℚ) ≤ 0 := by norm_num
  have hpriT : (jsTrim ((some "1" : Option String).getD "") = "1"
      ∨ jsTrim ((some "1" : Option String).getD "") = "2") := Or.inl (by decide)
  have hd0 : ¬ payRecM.accountant_due_amount.getD 0 ≤ 0 := by
    simp [payRecM, basePayment]
  have hnlt : ¬ payRecM.accountant_due_amount.getD 0 < 899999/1000 := by
    simp [payRecM, basePayment]
    norm_num
  have hcond : payRecM.stage = "manager" ∧ payRecM.status = "pending_manager" := ⟨rfl, rfl⟩
  have hrem0 : ¬ (0 : ℚ) < round2 (payRecM.accountant_due_amount.getD 0 - 899999/1000) := by
    rw [hsub, hround]
    norm_num
  simp only [managerPatch, eq_false hpay0, eq_true hpriT, eq_false hd0, eq_false hnlt,
    eq_true hcond, not_true, not_false_iff, if_true, if_false, Option.getD_some,
    eq_false hrem0]
  refine ⟨_, rfl, ?_, rfl, ?_, hsub, by rw [hsub]; norm_num⟩
  · show some (round2 (payRecM.accountant_due_amount.getD 0 - 899999/1000)) = some 0
    rw [hsub, hround]
  · show (if ("full" : String) = "partial"
        then "approved_manager_partial" else "approved_manager") = "approved_manager"
    simp

/-! ### Claim C2: external sync failure handling after commit -/

/-- C2: once the manager approval commits, the handler answers 200
whatever the sync outcome; the persisted row carries
`medad_sync_status`/`medad_error` from the sync outcome and a sync
timestamp, while every approval field (stage, status, amounts, state)
keeps its committed value; the response's `medad.status` mirrors the
persisted sync status; a non-success HTTP status or a thrown error give
`FAILED` with the raw error text, success gives `SENT_TO_MEDAD`. -/
theorem c2_sync_failure_handling (r : PaymentRecord) (pay : ℚ)
    (prio mn mi : Option String) (sync : SyncOutcome) (pt v now : Nat)
    (hstage : r.stage = "manager") (hstatus : r.status = "pending_manager")
    (hpos : 0 < pay)
    (hpri : jsTrim (prio.getD "") = "1" ∨ jsTrim (prio.getD "") = "2")
    (hle : pay ≤ r.accountant_due_amount.getD 0) :
    ∃ r', (managerPatch (some r) ⟨some pay, prio, mn, mi⟩ sync pt v now).2 = some r'
      ∧ (managerPatch (some r) ⟨some pay, prio, mn, mi⟩ sync pt v now).1.httpStatus = 200
      ∧ r'.medad_sync_status = (medadOutcome sync).2.1
      ∧ r'.medad_error = (medadOutcome sync).2.2
      ∧ r'.medad_synced_at = some now
      ∧ (managerPatch (some r) ⟨some pay, prio, mn, mi⟩ sync pt v now).1.medad =
          some ⟨(medadOutcome sync).2.1, (medadOutcome sync).2.2⟩
      ∧ r'.stage = "manager_done"
      ∧ r'.manager_pay_amount = some pay
      ∧ r'.remaining_amount = some (round2 (r.accountant_due_amount.getD 0 - pay))
      ∧ r'.payment_state =
          some (if 0 < round2 (r.accountant_due_amount.getD 0 - pay)
            then "partial" else "full")
      ∧ (∀ st raw p, sync = .httpError st raw p →
          (medadOutcome sync).2.1 = "FAILED"
          ∧ (raw ≠ "" → (medadOutcome sync).2.2 = some raw))
      ∧ (∀ m, sync = .threw m → (medadOutcome sync).2.1 = "FAILED")
      ∧ (∀ raw p, sync = .ok raw p → (medadOutcome sync).2.1 = "SENT_TO_MEDAD") := by
  have hpay0 : ¬ pay ≤ 0 := not_le.mpr hpos
  have hd0 : ¬ r.accountant_due_amount.getD 0 ≤ 0 :=
    not_le.mpr (lt_of_lt_of_le hpos hle)
  have hnlt : ¬ r.accountant_due_amount.getD 0 < pay := not_lt.mpr hle
  have hcond : r.stage = "manager" ∧ r.status = "pending_manager" := ⟨hstage, hstatus⟩
  simp only [managerPatch, eq_false hpay0, eq_true hpri, eq_false hd0, eq_false hnlt,
    eq_true hcond, not_true, not_false_iff, if_true, if_false, Option.getD_some]
  refine ⟨_, rfl, ?_, ?_, ?_, ?_, ?_, ?_, ?_, ?_, ?_, ?_, ?_, ?_⟩ <;>
    first
    | trivial
    | (intro st raw p hs; subst hs;
        exact ⟨rfl, fun hraw => by simp [medadOutcome, hraw]⟩)
    | (intro m hs; subst hs; rfl)
    | (intro raw p hs; subst hs; rfl)

/-- Witness for C2: due 900, pay 900, sync fails with HTTP 500 and body
`boom`; the approval stays committed while the failure is recorded. -/
theorem c2_sync_failure_handling_witness :
    ∃ r', (managerPatch (some payRecM) ⟨some 900, some "2", none, none⟩
        (.httpError 500 "boom" false) 1 1 9).2 = some r'
      ∧ (managerPatch (some payRecM) ⟨some 900, some "2", none, none⟩
          (.httpError 500 "boom" false) 1 1 9).1.httpStatus = 200
      ∧ r'.medad_sync_status = "FAILED"
      ∧ r'.medad_error = some "boom"
      ∧ r'.medad_synced_at = some 9
      ∧ r'.stage = "manager_done"
      ∧ r'.manager_pay_amount = some 900 := by
  obtain ⟨r', h1, h2, h3, h4, h5, _, h7, h8, _⟩ :=
    c2_sync_failure_handling payRecM 900 (some "2") none none
      (.httpError 500 "boom" false) 1 1 9 rfl rfl (by norm_num)
      (Or.inr (by decide)) (by simp [payRecM, basePayment])
  refine ⟨r', h1, h2, ?_, ?_, h5, h7, h8⟩
  · simpa [medadOutcome] using h3
  · simpa [medadOutcome] using h4

/-! ### Claim C3: shape of the conditional stage transitions -/

/-- A concrete accountant request body with a valid due amount. -/
def accReq : AccountantReq := ⟨some 500, none, none, none⟩

/-- C3 counterexample: (a) the accountant update commits (HTTP 200) on a
record whose status is not the expected `pending_accountant` — its WHERE
clause tests only the stage, not the status; (b) on a record that exists
but is past the accountant stage the caller gets the same 404 response
as for an id that does not exist at all — Conflict is never returned and
nothing disambiguates the two cases. -/
theorem c3_counterexample :
    ((accountantPatch (some { basePayment with status := "weird" }) accReq 3).1.httpStatus = 200
      ∧ ({ basePayment with status := "weird" } : PaymentRecord).status ≠ "pending_accountant")
    ∧ ((accountantPatch
          (some { basePayment with stage := "manager_done", status := "approved_manager" })
          accReq 3).1.httpStatus = 404
      ∧ (accountantPatch
          (some { basePayment with stage := "manager_done", status := "approved_manager" })
          accReq 3).1 = (accountantPatch none accReq 3).1) := by
  refine ⟨⟨?_, by decide⟩, ?_, ?_⟩ <;> decide

/-- C3 (amended): each transition is a single conditional update, but
the accountant update's WHERE clause tests only the expected stage (a
record in stage `accountant` commits whatever its status), the manager
update's WHERE clause tests both stage and status, and a zero-row update
is answered with 404 in every case — absent id or existing record in a
different state alike — never with a Conflict status, and with no
follow-up disambiguating existence check. -/
theorem c3_conditional_update_amended (r : PaymentRecord) (req : AccountantReq)
    (due pay : ℚ) (prio mn mi : Option String) (sync : SyncOutcome) (pt v now : Nat)
    (hdue : req.dueAmount = some due) (hduep : 0 < due)
    (hpos : 0 < pay)
    (hpri : jsTrim (prio.getD "") = "1" ∨ jsTrim (prio.getD "") = "2") :
    (accountantPatch none req now).1.httpStatus = 404
    ∧ (r.stage ≠ "accountant" →
        (accountantPatch (some r) req now).1.httpStatus = 404
        ∧ (accountantPatch (some r) req now).2 = some r)
    ∧ (r.stage = "accountant" →
        (accountantPatch (some r) req now).1.httpStatus = 200)
    ∧ (managerPatch none ⟨some pay, prio, mn, mi⟩ sync pt v now).1.httpStatus = 404
    ∧ (0 < r.accountant_due_amount.getD 0 →
        pay ≤ r.accountant_due_amount.getD 0 →
        ¬ (r.stage = "manager" ∧ r.status = "pending_manager") →
        (managerPatch (some r) ⟨some pay, prio, mn, mi⟩ sync pt v now).1.httpStatus = 404
        ∧ (managerPatch (some r) ⟨some pay, prio, mn, mi⟩ sync pt v now).2 = some r) := by
  have hd0 : ¬ due ≤ 0 := not_le.mpr hduep
  have hpay0 : ¬ pay ≤ 0 := not_le.mpr hpos
  refine ⟨?_, ?_, ?_, ?_, ?_⟩
  · simp [accountantPatch, hdue, hd0, errResp]
  · intro hst
    constructor <;> simp [accountantPatch, hdue, hd0, hst, errResp]
  · intro hst
    simp [accountantPatch, hdue, hd0, hst, errResp]
  · simp [managerPatch, hpay0, eq_true hpri, errResp]
  · intro hdpos hple hnot
    have hd0' : ¬ r.accountant_due_amount.getD 0 ≤ 0 := not_le.mpr hdpos
    have hnlt : ¬ r.accountant_due_amount.getD 0 < pay := not_lt.mpr hple
    constructor <;>
      simp [managerPatch, hpay0, eq_true hpri, hd0', hnlt, eq_false hnot, errResp]

/-- Witness for C3 (amended): a fresh record in the accountant stage
commits; an absent id gets 404 from both transitions. -/
theorem c3_conditional_update_amended_witness :
    (accountantPatch none accReq 3).1.httpStatus = 404
    ∧ (accountantPatch (some basePayment) accReq 3).1.httpStatus = 200
    ∧ (managerPatch none ⟨some 10, some "1", none, none⟩ (.ok "" true) 1 1 3).1.httpStatus = 404 := by
  obtain ⟨h1, _, h3, h4, _⟩ :=
    c3_conditional_update_amended basePayment accReq 500 10 (some "1") none none
      (.ok "" true) 1 1 3 rfl (by norm_num) (by norm_num) (Or.inl (by decide))
  exact ⟨h1, h3 rfl, h4⟩

/-! ### Claim C4: locking discipline of the manager transition -/

/-- C4 counterexample: the manager transition's statement sequence
contains no `BEGIN` and no `SELECT ... FOR UPDATE` — the read of
`accountant_due_amount`, the validation, and the conditional write are
not performed inside a transaction holding a row lock. -/
theorem c4_counterexample :
    ¬ (SqlStmt.beginTx ∈ managerPatchStmts
      ∧ SqlStmt.selectRow "payment_workflow_requests" true ∈ managerPatchStmts) := by
  decide

/-- C4 (amended): the manager transition issues a plain, unlocked
`SELECT` followed by two auto-committed `UPDATE`s with no transaction
markers; the only concurrency protection of the write is its conditional
WHERE clause on `stage = 'manager' AND status = 'pending_manager'`. -/
theorem c4_no_lock_amended :
    (∀ s ∈ managerPatchStmts,
      s ≠ SqlStmt.beginTx ∧ s ≠ SqlStmt.commitTx
      ∧ s ≠ SqlStmt.selectRow "payment_workflow_requests" true)
    ∧ SqlStmt.selectRow "payment_workflow_requests" false ∈ managerPatchStmts
    ∧ SqlStmt.updateRow "payment_workflow_requests"
        [.eqCol "stage" "manager", .eqCol "status" "pending_manager"] ∈ managerPatchStmts := by
  decide

/-! ### Concrete order records used in witnesses and counterexamples -/

/-- A pending order row awaiting approvals. -/
def baseOrder : OrderRow where
  client_id := some "7"
  delivery_date := some "2025-06-01"
  delivery_type := some "standard"
  notes := none
  status := some "not Delivered"
  storekeeperaccept := "accepted"
  supervisoraccept := "accepted"
  manageraccept := "pending"
  storekeeperaccept_at := some 1
  supervisoraccept_at := some 2
  manageraccept_at := none
  actual_delivery_date := none
  storekeeper_notes := none
  total_price := 20
  total_vat := 3
  total_subtotal := 23
  custom_id := "NPO-2025-00004"
  updated_at := 2

/-- The pending order with one stored line. -/
def baseOrderState : OrderState where
  row := baseOrder
  products := [{ description := some "w", quantity := 2, price := 10,
                 vat := 3, subtotal := 23 }]
  locations := []

/-! ### Claim C8: delivered orders refuse edit and delete -/

/-- C8: an order whose (case-normalised) status is `delivered` answers
400 to both `PUT` and `DELETE`, with the row, its line items and its
locations untouched; mechanically, both handlers open a transaction,
take the row lock with `SELECT ... FOR UPDATE`, and the edit's `UPDATE`
carries the defensive `LOWER(status) <> 'delivered'` guard. -/
theorem c8_delivered_refuses_mutation (st : OrderState) (body : PutBody) (now : Nat)
    (hdel : jsToLower (st.row.status.getD "") = "delivered") :
    ((putOrder (some st) body now).1.httpStatus = 400
      ∧ (putOrder (some st) body now).2 = some st)
    ∧ ((deleteOrder (some st)).1.httpStatus = 400
      ∧ (deleteOrder (some st)).2 = some st)
    ∧ (SqlStmt.beginTx ∈ orderPutStmts
      ∧ SqlStmt.selectRow "orders" true ∈ orderPutStmts
      ∧ SqlStmt.updateRow "orders" [.lowerNeCol "status" "delivered"] ∈ orderPutStmts
      ∧ SqlStmt.beginTx ∈ orderDeleteStmts
      ∧ SqlStmt.selectRow "orders" true ∈ orderDeleteStmts) := by
  refine ⟨⟨?_, ?_⟩, ⟨?_, ?_⟩, by decide⟩ <;> simp [putOrder, deleteOrder, hdel]

/-- Witness for C8: a delivered order. -/
theorem c8_delivered_refuses_mutation_witness :
    ((putOrder (some { baseOrderState with
        row := { baseOrder with status := some "Delivered" } })
      { client_id := none, delivery_date := none, delivery_type := none,
        notes := none, products := none, status := none,
        storekeeper_notes := none, deliveryLocations := none } 9).1.httpStatus = 400
      ∧ (putOrder (some { baseOrderState with
          row := { baseOrder with status := some "Delivered" } })
        { client_id := none, delivery_date := none, delivery_type := none,
          notes := none, products := none, status := none,
          storekeeper_notes := none, deliveryLocations := none } 9).2 =
        some { baseOrderState with row := { baseOrder with status := some "Delivered" } })
    ∧ ((deleteOrder (some { baseOrderState with
          row := { baseOrder with status := some "Delivered" } })).1.httpStatus = 400
      ∧ (deleteOrder (some { baseOrderState with
          row := { baseOrder with status := some "Delivered" } })).2 =
        some { baseOrderState with row := { baseOrder with status := some "Delivered" } }) := by
  have h := c8_delivered_refuses_mutation
    { baseOrderState with row := { baseOrder with status := some "Delivered" } }
    { client_id := none, delivery_date := none, delivery_type := none,
      notes := none, products := none, status := none,
      storekeeper_notes := none, deliveryLocations := none } 9 (by decide)
  exact ⟨h.1, h.2.1⟩

/-! ### Claim C10: the manager-accept operations -/

/-- C10: `PUT /acceptManager/:id` succeeds with 200 on every existing
order regardless of its status or acceptance flags, mutates exactly
`manageraccept`, `manageraccept_at` and `updated_at`, and is idempotent
— a second application leaves the record as a single application would;
the quotation handler behaves identically on `quotations`. -/
theorem c10_manager_accept (r : OrderRow) (q : QuotationRow) (t1 t2 : Nat) :
    (acceptManagerPut (some r) t1).1.httpStatus = 200
    ∧ (acceptManagerPut (some r) t1).2 = some (acceptManagerUpdate r t1)
    ∧ (acceptManagerUpdate r t1).manageraccept = "accepted"
    ∧ (acceptManagerUpdate r t1).manageraccept_at = some t1
    ∧ (acceptManagerUpdate r t1).updated_at = t1
    ∧ (acceptManagerUpdate r t1).client_id = r.client_id
    ∧ (acceptManagerUpdate r t1).delivery_date = r.delivery_date
    ∧ (acceptManagerUpdate r t1).delivery_type = r.delivery_type
    ∧ (acceptManagerUpdate r t1).notes = r.notes
    ∧ (acceptManagerUpdate r t1).status = r.status
    ∧ (acceptManagerUpdate r t1).storekeeperaccept = r.storekeeperaccept
    ∧ (acceptManagerUpdate r t1).supervisoraccept = r.supervisoraccept
    ∧ (acceptManagerUpdate r t1).storekeeperaccept_at = r.storekeeperaccept_at
    ∧ (acceptManagerUpdate r t1).supervisoraccept_at = r.supervisoraccept_at
    ∧ (acceptManagerUpdate r t1).actual_delivery_date = r.actual_delivery_date
    ∧ (acceptManagerUpdate r t1).storekeeper_notes = r.storekeeper_notes
    ∧ (acceptManagerUpdate r t1).total_price = r.total_price
    ∧ (acceptManagerUpdate r t1).total_vat = r.total_vat
    ∧ (acceptManagerUpdate r t1).total_subtotal = r.total_subtotal
    ∧ (acceptManagerUpdate r t1).custom_id = r.custom_id
    ∧ acceptManagerUpdate (acceptManagerUpdate r t1) t2 = acceptManagerUpdate r t2
    ∧ acceptManagerUpdate (acceptManagerUpdate r t1) t1 = acceptManagerUpdate r t1
    ∧ (acceptManagerQuotationPut (some q) t1).1.httpStatus = 200
    ∧ (acceptManagerQuotationPut (some q) t1).2 =
        some (acceptManagerQuotationUpdate q t1)
    ∧ (acceptManagerQuotationUpdate q t1).manageraccept = "accepted"
    ∧ (acceptManagerQuotationUpdate q t1).status = q.status
    ∧ acceptManagerQuotationUpdate (acceptManagerQuotationUpdate q t1) t2 =
        acceptManagerQuotationUpdate q t2 := by
  repeat' apply And.intro
  all_goals rfl

/-! ### Claim C6: per-line VAT/subtotal and record totals -/

theorem computeTotals_go (ps : List RawProduct) (a : ℚ × ℚ × ℚ) :
    ps.foldl
      (fun acc p =>
        let tp := coerceNum p.price * coerceNum p.quantity
        let vat := tp * (15 / 100)
        (acc.1 + tp, acc.2.1 + vat, acc.2.2 + (tp + vat))) a =
    (a.1 + ((storedProducts ps).map (fun l => l.price * l.quantity)).sum,
     a.2.1 + ((storedProducts ps).map (fun l => l.vat)).sum,
     a.2.2 + ((storedProducts ps).map (fun l => l.subtotal)).sum) := by
  induction ps generalizing a with
  | nil => simp [storedProducts]
  | cons p ps ih =>
    simp only [List.foldl_cons, ih, storedProducts, List.map_cons, List.map_map,
      List.sum_cons]
    simp [storedProducts]
    refine ⟨by ring, by ring, by ring⟩

theorem computeTotals_eq (ps : List RawProduct) :
    computeTotals ps =
      (((storedProducts ps).map (fun l => l.price * l.quantity)).sum,
       ((storedProducts ps).map (fun l => l.vat)).sum,
       ((storedProducts ps).map (fun l => l.subtotal)).sum) := by
  have h := computeTotals_go ps (0, 0, 0)
  simpa [computeTotals] using h

/-- C6: when an order is edited with a set of line items (all carrying a
parsed positive price and quantity), the stored lines satisfy
`vat = price * quantity * 0.15` and `subtotal = price * quantity + vat`
exactly, and the stored record totals are the elementwise sums of the
per-line values; in particular the sum of line subtotals equals
`total_subtotal`. -/
theorem c6_financial_aggregation (ps : List RawProduct) (st : OrderState)
    (body : PutBody) (now : Nat)
    (hnd : jsToLower (st.row.status.getD "") ≠ "delivered")
    (hps : body.products = some ps) (hne : ps ≠ [])
    (_hvalid : ∀ p ∈ ps, ∃ q1 q2,
      p.price = some q1 ∧ 0 < q1 ∧ p.quantity = some q2 ∧ 0 < q2) :
    ∃ st', (putOrder (some st) body now).2 = some st'
      ∧ (putOrder (some st) body now).1.httpStatus = 200
      ∧ st'.products = storedProducts ps
      ∧ (∀ l ∈ st'.products,
          l.vat = l.price * l.quantity * (15 / 100)
          ∧ l.subtotal = l.price * l.quantity + l.vat)
      ∧ st'.row.total_price = (st'.products.map (fun l => l.price * l.quantity)).sum
      ∧ st'.row.total_vat = (st'.products.map (fun l => l.vat)).sum
      ∧ st'.row.total_subtotal = (st'.products.map (fun l => l.subtotal)).sum := by
  have hE : (ps = []) = False := by simp [hne]
  simp only [putOrder, eq_false hnd, if_false, hps, Option.getD_some, hE, ite_false]
  refine ⟨_, rfl, ?_, ?_, ?_, ?_, ?_, ?_⟩
  case refine_1 => trivial
  case refine_2 => trivial
  · intro l hl
    have hl' : l ∈ List.map (fun p =>
        let np := coerceNum p.price
        let nq := coerceNum p.quantity
        let tp := np * nq
        let vat := tp * (15 / 100)
        ({ description := p.description, quantity := nq, price := np,
           vat := vat, subtotal := tp + vat } : StoredProduct)) ps := hl
    obtain ⟨p, _, rfl⟩ := List.mem_map.mp hl'
    exact ⟨rfl, rfl⟩
  · show (computeTotals ps).1 = _
    rw [computeTotals_eq]
  · show (computeTotals ps).2.1 = _
    rw [computeTotals_eq]
  · show (computeTotals ps).2.2 = _
    rw [computeTotals_eq]

/-- Witness for C6 at one valid two-line item set. -/
theorem c6_financial_aggregation_witness :
    ∃ st', (putOrder (some baseOrderState)
        { client_id := some "7", delivery_date := some "2025-06-01",
          delivery_type := some "standard", notes := none,
          products := some [⟨some "a", some 10, some 2⟩, ⟨some "b", some 4, some 5⟩],
          status := none, storekeeper_notes := none, deliveryLocations := none } 9).2
      = some st'
      ∧ st'.products = storedProducts [⟨some "a", some 10, some 2⟩, ⟨some "b", some 4, some 5⟩]
      ∧ st'.row.total_subtotal = (st'.products.map (fun l => l.subtotal)).sum := by
  obtain ⟨st', h1, _, h3, _, _, _, h7⟩ :=
    c6_financial_aggregation [⟨some "a", some 10, some 2⟩, ⟨some "b", some 4, some 5⟩]
      baseOrderState
      { client_id := some "7", delivery_date := some "2025-06-01",
        delivery_type := some "standard", notes := none,
        products := some [⟨some "a", some 10, some 2⟩, ⟨some "b", some 4, some 5⟩],
        status := none, storekeeper_notes := none, deliveryLocations := none } 9
      (by decide) rfl (by decide)
      (by
        intro p hp
        simp only [List.mem_cons, List.not_mem_nil, or_false] at hp
        rcases hp with rfl | rfl
        · exact ⟨10, 2, rfl, by norm_num, rfl, by norm_num⟩
        · exact ⟨4, 5, rfl, by norm_num, rfl, by norm_num⟩)
  exact ⟨st', h1, h3, h7⟩

/-! ### Claim C7: validation of line prices and quantities -/

/-- C7 counterexample: a line whose price does not parse (`parseFloat`
gives `NaN`) is not rejected — `PUT /orders/:id` answers 200 and stores
the line with price 0, vat 0 and subtotal 0. -/
theorem c7_counterexample :
    (putOrder (some baseOrderState)
      { client_id := some "7", delivery_date := some "2025-06-01",
        delivery_type := some "standard", notes := none,
        products := some [⟨some "x", none, some 2⟩],
        status := none, storekeeper_notes := none, deliveryLocations := none } 5).1.httpStatus
      = 200
    ∧ ∃ st', (putOrder (some baseOrderState)
        { client_id := some "7", delivery_date := some "2025-06-01",
          delivery_type := some "standard", notes := none,
          products := some [⟨some "x", none, some 2⟩],
          status := none, storekeeper_notes := none, deliveryLocations := none } 5).2
      = some st'
      ∧ st'.products =
          [{ description := some "x", quantity := 2, price := 0, vat := 0, subtotal := 0 }] := by
  have hnd : (jsToLower ((baseOrderState.row.status).getD "") = "delivered") = False := by
    decide
  have hE : (([⟨some "x", none, some 2⟩] : List RawProduct) = []) = False := by simp
  constructor
  · simp only [putOrder, hnd, if_false]
  · simp only [putOrder, hnd, hE, if_false, ite_false]
    refine ⟨_, rfl, ?_⟩
    show storedProducts [⟨some "x", none, some 2⟩] = _
    simp only [storedProducts, List.map_cons, List.map_nil, coerceNum, Option.getD_none,
      Option.getD_some]
    norm_num

/-- C7 (amended): the mutation never fails on a line with a non-numeric
or non-positive price or quantity; `parseFloat(x) || 0` silently coerces
a failed parse to 0 (and keeps any parsed value, including negative
ones), and the line is stored with the zero-based computed amounts. -/
theorem c7_coercion_amended (ps : List RawProduct) (st : OrderState)
    (body : PutBody) (now : Nat)
    (hnd : jsToLower (st.row.status.getD "") ≠ "delivered")
    (hps : body.products = some ps) (hne : ps ≠ []) :
    (putOrder (some st) body now).1.httpStatus = 200
    ∧ (∃ st', (putOrder (some st) body now).2 = some st'
        ∧ st'.products = storedProducts ps)
    ∧ coerceNum none = 0
    ∧ (∀ q : ℚ, coerceNum (some q) = q)
    ∧ (∀ d q, storedProducts [⟨d, none, q⟩] =
        [{ description := d, quantity := coerceNum q, price := 0, vat := 0, subtotal := 0 }]) := by
  have hE : (ps = []) = False := by simp [hne]
  refine ⟨?_, ?_, rfl, fun q => rfl, ?_⟩
  · simp only [putOrder, eq_false hnd, if_false, hps, Option.getD_some, hE, ite_false]
  · simp only [putOrder, eq_false hnd, if_false, hps, Option.getD_some, hE, ite_false]
    exact ⟨_, rfl, rfl⟩
  · intro d q
    simp only [storedProducts, List.map_cons, List.map_nil, coerceNum, Option.getD_none]
    norm_num

/-- Witness for C7 (amended): a line with an unparseable price and a
line with a negative quantity are both accepted. -/
theorem c7_coercion_amended_witness :
    (putOrder (some baseOrderState)
      { client_id := some "7", delivery_date := some "2025-06-01",
        delivery_type := some "standard", notes := none,
        products := some [⟨some "x", none, some 2⟩, ⟨some "y", some 3, some (-1)⟩],
        status := none, storekeeper_notes := none, deliveryLocations := none } 5).1.httpStatus
      = 200 :=
  (c7_coercion_amended [⟨some "x", none, some 2⟩, ⟨some "y", some 3, some (-1)⟩]
    baseOrderState
    { client_id := some "7", delivery_date := some "2025-06-01",
      delivery_type := some "standard", notes := none,
      products := some [⟨some "x", none, some 2⟩, ⟨some "y", some 3, some (-1)⟩],
      status := none, storekeeper_notes := none, deliveryLocations := none } 5
    (by decide) rfl (by decide)).1

/-! ### Claim C9: editing resets acceptances and revises the custom id -/

/-- A generator-shaped custom id, `NPO-year-NNNNN`. -/
def freshId (year m : Nat) : String :=
  String.mk (yearPrefChars year ++ padChars m)

/-- A revised custom id, `NPO-year-NNNNN Revk`. -/
def revisedId (year m k : Nat) : String :=
  String.mk (yearPrefChars year ++ (padChars m ++ (" Rev".toList ++ natDigits k)))

theorem trailingDigits_append (b : List Char) (c : Char) (hc : c.isDigit = false)
    (ds : List Char) (hds : ∀ x ∈ ds, x.isDigit = true) :
    trailingDigits ((b ++ [c]) ++ ds) = ds := by
  rw [trailingDigits, List.reverse_append, List.reverse_append]
  have h1 : ([c].reverse ++ b.reverse) = c :: b.reverse := by simp
  rw [h1, takeWhile_append_all _ (fun x hx => hds x (List.mem_reverse.mp hx)),
    List.takeWhile_cons, hc]
  simp

theorem revChars_isSuffixOf_append (t : List Char) :
    ("Rev".toList).isSuffixOf (t ++ "Rev".toList) = true := by
  rw [List.isSuffixOf, List.reverse_append]
  exact isPrefixOf_append_self ("Rev".toList).reverse t.reverse

theorem revChars_not_suffixOf_dash (t : List Char) :
    ("Rev".toList).isSuffixOf (t ++ ['-']) = false := by
  rw [List.isSuffixOf, List.reverse_append]
  simp [List.isPrefixOf]

theorem reviseCustomId_freshId (year m : Nat) :
    reviseCustomId (freshId year m) = revisedId year m 1 := by
  have htr : trailingDigits (yearPrefChars year ++ padChars m) = padChars m :=
    trailingDigits_append ("NPO-".toList ++ natDigits year) '-' (by decide)
      (padChars m) (padChars_all_digit m)
  have hlen : (yearPrefChars year ++ padChars m).length - (padChars m).length
      = (yearPrefChars year).length := by
    simp [List.length_append]
  have hlist : (freshId year m).toList = yearPrefChars year ++ padChars m := rfl
  rw [reviseCustomId, hlist, htr, hlen, List.take_left]
  rw [if_neg (fun hcontra => by
    have h2 := hcontra.2
    rw [show (yearPrefChars year) = (("NPO-".toList ++ natDigits year) ++ ['-']) from rfl,
      revChars_not_suffixOf_dash] at h2
    exact Bool.noConfusion h2)]
  have hcat : ((" Rev".toList ++ natDigits 1 : List Char)) = " Rev1".toList := by decide
  rw [revisedId]
  congr 1
  rw [hcat, ← List.append_assoc]

theorem reviseCustomId_revisedId (year m k : Nat) :
    reviseCustomId (revisedId year m k) = revisedId year m (k + 1) := by
  set p := yearPrefChars year with hp
  set d := padChars m with hd
  set nd := natDigits k with hnd
  have hB : (" Rev".toList : List Char) = [' '] ++ "Rev".toList := by decide
  have hA : (" Rev".toList : List Char) = [' ', 'R', 'e'] ++ ['v'] := by decide
  have hlist : (revisedId year m k).toList = p ++ (d ++ (" Rev".toList ++ nd)) := rfl
  have hshape1 : p ++ (d ++ (" Rev".toList ++ nd))
      = ((p ++ (d ++ [' ', 'R', 'e'])) ++ ['v']) ++ nd := by
    rw [hA]; simp [List.append_assoc]
  have htr : trailingDigits (p ++ (d ++ (" Rev".toList ++ nd))) = nd := by
    rw [hshape1]
    refine trailingDigits_append _ 'v' (by decide) _ ?_
    rw [hnd]; exact natDigits_all_digit k
  have hshape2 : p ++ (d ++ (" Rev".toList ++ nd))
      = ((p ++ (d ++ [' '])) ++ "Rev".toList) ++ nd := by
    rw [hB]; simp [List.append_assoc]
  rw [reviseCustomId, hlist, htr, hshape2]
  have hlen2 : (((p ++ (d ++ [' '])) ++ "Rev".toList) ++ nd).length - nd.length
      = ((p ++ (d ++ [' '])) ++ "Rev".toList).length := by
    simp [List.length_append]
    omega
  rw [hlen2, List.take_left]
  have hne : nd ≠ [] := by rw [hnd]; exact natDigits_ne_nil k
  rw [if_pos ⟨hne, revChars_isSuffixOf_append _⟩]
  have hlen3 : ((p ++ (d ++ [' '])) ++ "Rev".toList).length - 3
      = (p ++ (d ++ [' '])).length := by
    simp [List.length_append]
    omega
  have hshape3 : ((p ++ (d ++ [' '])) ++ "Rev".toList) ++ nd
      = (p ++ (d ++ [' '])) ++ ("Rev".toList ++ nd) := by
    simp [List.append_assoc]
  rw [hlen3, hshape3, List.take_left]
  have hval : digitsToNat nd + 1 = k + 1 := by
    rw [hnd, digitsToNat_natDigits]
  rw [hval, revisedId]
  rw [← hp, ← hd]
  congr 1
  rw [hB]
  simp [List.append_assoc]

theorem suffixVal_freshId (year m : Nat) : suffixVal year (freshId year m) = m := by
  rw [freshId, suffixVal_mk year _ (padChars_all_digit m), digitsToNat_padChars]

theorem suffixVal_revisedId (year m k : Nat) : suffixVal year (revisedId year m k) = m := by
  have hlist : (revisedId year m k).toList
      = yearPrefChars year ++ (padChars m ++ (" Rev".toList ++ natDigits k)) := rfl
  rw [suffixVal, hlist, List.drop_left,
    takeWhile_append_all _ (padChars_all_digit m)]
  have h2 : List.takeWhile Char.isDigit (" Rev".toList ++ natDigits k) = [] := by
    rw [show (" Rev".toList : List Char) = ' ' :: "Rev".toList from by decide,
      List.cons_append, List.takeWhile_cons]
    simp
  rw [h2, List.append_nil, digitsToNat_padChars]

/-- An edit body that carries no products or locations. -/
def emptyPut : PutBody where
  client_id := none
  delivery_date := none
  delivery_type := none
  notes := none
  products := none
  status := none
  storekeeper_notes := none
  deliveryLocations := none

/-- C9: editing a non-delivered order (in particular one already
carrying acceptances) resets the three acceptance flags to `pending`,
nulls their timestamps, and replaces `custom_id` by its revision: a
generator-shaped id `NPO-year-NNNNN` becomes `NPO-year-NNNNN Rev1` and
an already revised id increments its `RevN` counter — in both cases the
id's numeric tail (the generator suffix value) is unchanged. -/
theorem c9_edit_resets_and_revises (st : OrderState) (body : PutBody) (now : Nat)
    (hnd : jsToLower (st.row.status.getD "") ≠ "delivered")
    (_hacc : st.row.storekeeperaccept = "accepted" ∨ st.row.supervisoraccept = "accepted"
      ∨ st.row.manageraccept = "accepted") :
    ∃ st', (putOrder (some st) body now).2 = some st'
      ∧ st'.row.storekeeperaccept = "pending"
      ∧ st'.row.supervisoraccept = "pending"
      ∧ st'.row.manageraccept = "pending"
      ∧ st'.row.storekeeperaccept_at = none
      ∧ st'.row.supervisoraccept_at = none
      ∧ st'.row.manageraccept_at = none
      ∧ st'.row.custom_id = reviseCustomId st.row.custom_id
      ∧ (∀ year m, st.row.custom_id = freshId year m →
          st'.row.custom_id = revisedId year m 1
          ∧ suffixVal year st'.row.custom_id = suffixVal year st.row.custom_id)
      ∧ (∀ year m k, st.row.custom_id = revisedId year m k →
          st'.row.custom_id = revisedId year m (k + 1)
          ∧ suffixVal year st'.row.custom_id = suffixVal year st.row.custom_id) := by
  simp only [putOrder, eq_false hnd, if_false]
  refine ⟨_, rfl, rfl, rfl, rfl, rfl, rfl, rfl, rfl, ?_, ?_⟩
  · intro year m hid
    constructor
    · show reviseCustomId st.row.custom_id = _
      rw [hid, reviseCustomId_freshId]
    · show suffixVal year (reviseCustomId st.row.custom_id) = _
      rw [hid, reviseCustomId_freshId, suffixVal_revisedId, suffixVal_freshId]
  · intro year m k hid
    constructor
    · show reviseCustomId st.row.custom_id = _
      rw [hid, reviseCustomId_revisedId]
    · show suffixVal year (reviseCustomId st.row.custom_id) = _
      rw [hid, reviseCustomId_revisedId, suffixVal_revisedId, suffixVal_revisedId]

/-- Witness for C9: editing the storekeeper-accepted base order revises
`NPO-2025-00004` to `NPO-2025-00004 Rev1` and resets the flags. -/
theorem c9_edit_resets_and_revises_witness :
    ∃ st', (putOrder (some baseOrderState) emptyPut 9).2 = some st'
      ∧ st'.row.storekeeperaccept = "pending"
      ∧ st'.row.manageraccept = "pending"
      ∧ st'.row.custom_id = reviseCustomId "NPO-2025-00004"
      ∧ reviseCustomId "NPO-2025-00004" = "NPO-2025-00004 Rev1" := by
  obtain ⟨st', h1, h2, _, h4, _, _, _, h8, _, _⟩ :=
    c9_edit_resets_and_revises baseOrderState emptyPut 9 (by decide) (Or.inl rfl)
  exact ⟨st', h1, h2, h4, h8, by decide⟩

/-- A delivered, already manager-accepted order row. -/
def deliveredAcceptedOrder : OrderRow :=
  { baseOrder with status := some "Delivered", manageraccept := "accepted" }

/-- A quotation row awaiting approvals. -/
def baseQuotation : QuotationRow where
  client_id := none
  status := none
  storekeeperaccept := "pending"
  supervisoraccept := "pending"
  manageraccept := "pending"
  manageraccept_at := none
  custom_id := "Q-1"
  total_price := 0
  updated_at := 0

/-- Witness for C10 at an order that is both delivered and already
manager-accepted: the accept still answers 200 and keeps the flag
accepted. -/
theorem c10_manager_accept_witness :
    (acceptManagerPut (some deliveredAcceptedOrder) 4).1.httpStatus = 200
    ∧ (acceptManagerUpdate deliveredAcceptedOrder 4).manageraccept = "accepted" := by
  have h := c10_manager_accept deliveredAcceptedOrder baseQuotation 4 5
  exact ⟨h.1, h.2.2.1⟩

end Etmam
